import Mathlib

/-!
# Verification of the HERE travel-time sensor (here_travel_time/sensor.py)

Shallow embedding of the core logic of the sensor: location resolution, zone
matching, proximity gating, routing-response parsing and the update state
machine.

Modelling conventions:
* Python None becomes Option.none; a Python exception becomes Except.error
  carrying the exception class name.
* Python floats appearing in the parse/round pipeline are modelled by exact
  rationals.  For round(seconds / 60) with seconds in [0, 86399] this is
  faithful: a tie (seconds % 60 = 30) gives k + 1/2, which binary64 computes
  and represents exactly, and a non-tie is at rational distance at least
  1/60 from every half-integer while the float error stays below 2^-30, so
  the float comparison agrees with the exact rational one.  mkRat a b is
  the exact rational a / b.
* The latitude/longitude attributes of host entities are only ever consumed
  through Python "%s,%s" string formatting, so an attribute value is
  modelled by its rendered string (Option.none = attribute absent, which
  renders as "None").
* geopy.distance.vincenty(..).meters is a floating-point ellipsoidal
  geodesic; it is modelled as an uninterpreted distance oracle in the
  environment, following the note of the spec that only the below-threshold
  classification, not a bit-exact distance, is a contract.
-/

/-- Decidable equality of Except results, used to evaluate the embedded
functions on concrete inputs. -/
instance {ε α : Type} [DecidableEq ε] [DecidableEq α] :
    DecidableEq (Except ε α) := fun a b =>
  match a, b with
  | .error e1, .error e2 =>
    if h : e1 = e2 then .isTrue (by rw [h])
    else .isFalse (by intro hc; cases hc; exact h rfl)
  | .error _, .ok _ => .isFalse (by intro hc; cases hc)
  | .ok _, .error _ => .isFalse (by intro hc; cases hc)
  | .ok a1, .ok a2 =>
    if h : a1 = a2 then .isTrue (by rw [h])
    else .isFalse (by intro hc; cases hc; exact h rfl)

/-- Python round on an exact rational: round half to even.  Int.fdiv is
Python floor division (the denominator of a rational is positive). -/
def pyRound (q : ℚ) : ℤ :=
  let n := q.num
  let d := (q.den : ℤ)
  let f := Int.fdiv n d
  let r2 := 2 * (n - f * d)
  if r2 < d then f
  else if d < r2 then f + 1
  else if f % 2 = 0 then f else f + 1

/-- Longest leading run of ASCII digits of a character list, with the rest. -/
def takeDigits : List Char → List Char × List Char
  | [] => ([], [])
  | c :: cs =>
    if c.isDigit then
      let (ds, rest) := takeDigits cs
      (c :: ds, rest)
    else ([], c :: cs)

/-- Matches the regex fragment [0-9]+(?:\.[0-9]+)? greedily at the head of
the list; returns the matched characters and the remainder.  For this
pattern greedy matching without backtracking is complete: shortening a
digit run always leaves a digit at the front, which can satisfy neither
the dot nor the comma that must follow. -/
def matchNumber (cs : List Char) : Option (List Char × List Char) :=
  match takeDigits cs with
  | ([], _) => none
  | (ds, rest) =>
    match rest with
    | '.' :: rest2 =>
      match takeDigits rest2 with
      | ([], _) => some (ds, rest)
      | (fs, rest3) => some (ds ++ '.' :: fs, rest3)
    | _ => some (ds, rest)

/-- COORD_PATTERN = re.compile of ([0-9]+(?:\.[0-9]+)?),([0-9]+(?:\.[0-9]+)?)
combined with re.match: anchored at the start of the string, NOT at its end
(a trailing remainder is ignored).  Returns the two capture groups on
success, none when no prefix of the string matches. -/
def coordMatch (s : String) : Option (String × String) :=
  match matchNumber s.toList with
  | none => none
  | some (g1, rest) =>
    match rest with
    | ',' :: rest2 =>
      match matchNumber rest2 with
      | none => none
      | some (g2, _) => some (⟨g1⟩, ⟨g2⟩)
    | _ => none

/-- Value of a digit character list read as a decimal natural. -/
def digitsToNat (l : List Char) : ℕ :=
  l.foldl (fun a c => a * 10 + (c.toNat - 48)) 0

/-- Splits a character list at the first dot: (whole part, fractional part
when a dot is present). -/
def splitDot (cs : List Char) : List Char × Option (List Char) :=
  match cs.span (fun c => !(c == '.')) with
  | (w, []) => (w, none)
  | (w, _ :: f) => (w, some f)

/-- Python float of a captured group (digits or digits.digits), modelled
exactly: float of "w.f" denotes the rational (w concatenated with f) over
10 ^ length f. -/
def parseDecimal (s : String) : ℚ :=
  match splitDot s.toList with
  | (w, none) => mkRat (digitsToNat w) 1
  | (w, some f) => mkRat (digitsToNat (w ++ f)) (10 ^ f.length)

/-- HereTravelTimeSensor.get_lat_long: m = COORD_PATTERN.match(string_value),
then float(m.group(1)) and float(m.group(2)).  When the match fails, m is
Python None and m.group(1) raises AttributeError, which propagates. -/
def get_lat_long (string_value : String) : Except String (ℚ × ℚ) :=
  match coordMatch string_value with
  | none => Except.error "AttributeError"
  | some (g1, g2) => Except.ok (parseDecimal g1, parseDecimal g2)

/-- Grammar side (from the words of the spec): a non-empty run of digits. -/
def isDigits (l : List Char) : Bool :=
  !l.isEmpty && l.all (fun c => c.isDigit)

/-- Grammar side: the full character list matches digits[.digits]. -/
def decNumFull (l : List Char) : Bool :=
  match splitDot l with
  | (w, none) => isDigits w
  | (w, some f) => isDigits w && isDigits f

/-- Grammar side: the FULL text of the string matches
digits[.digits],digits[.digits] (the grammar of the spec for a
"lat,long" value). -/
def coordFull (s : String) : Bool :=
  match s.toList.span (fun c => !(c == ',')) with
  | (a, _ :: b) => decNumFull a && decNumFull b
  | (_, []) => false

/-- Grammar side: no prefix of the string (the string itself included)
matches the coordinate grammar.  Bounded over the prefix length, hence
decidable by evaluation. -/
def noPrefixCoordMatch (s : String) : Bool :=
  (List.range (s.toList.length + 1)).all
    (fun n => !(coordFull ⟨s.toList.take n⟩))

/-- Python datetime.timedelta restricted to non-negative whole seconds
(isodate.parse_duration on the duration grammar modelled below never
produces microseconds or a negative value).  Python normalizes a timedelta
into days plus a seconds-of-day component. -/
structure Timedelta where
  total_seconds : ℕ
  deriving DecidableEq, Repr

/-- The .seconds attribute of a Python timedelta: the seconds WITHIN the
last day, in [0, 86400) — not the total seconds. -/
def Timedelta.seconds (t : Timedelta) : ℕ :=
  t.total_seconds % 86400

/-- The .days attribute of a Python timedelta. -/
def Timedelta.days (t : Timedelta) : ℕ :=
  t.total_seconds / 86400

/-- Parses an optional component "digits u" at the head of the list; when
the digits are not followed by the unit u the input is left untouched. -/
def parseOptComp (u : Char) (cs : List Char) : Option ℕ × List Char :=
  match takeDigits cs with
  | ([], _) => (none, cs)
  | (ds, rest) =>
    match rest with
    | c :: rest2 => if c == u then (some (digitsToNat ds), rest2) else (none, cs)
    | [] => (none, cs)

/-- Modelled from the spec: isodate.parse_duration (third-party library, not
part of this repository) on the ISO-8601 duration grammar the spec uses —
P[nD][T[nH][nM][nS]] with non-negative integer components, at least one
component present.  A string outside the grammar raises ISO8601Error.
The result is the Python timedelta whose total seconds is the sum of the
components converted to seconds. -/
def parse_duration (s : String) : Except String Timedelta :=
  match s.toList with
  | 'P' :: rest =>
    let (dOpt, rest1) := parseOptComp 'D' rest
    match rest1 with
    | [] =>
      match dOpt with
      | some d => Except.ok ⟨86400 * d⟩
      | none => Except.error "ISO8601Error"
    | 'T' :: rest2 =>
      let (hOpt, r3) := parseOptComp 'H' rest2
      let (mOpt, r4) := parseOptComp 'M' r3
      let (sOpt, r5) := parseOptComp 'S' r4
      if r5 = [] ∧ (hOpt.isSome ∨ mOpt.isSome ∨ sOpt.isSome) then
        Except.ok ⟨86400 * dOpt.getD 0 + 3600 * hOpt.getD 0
          + 60 * mOpt.getD 0 + sOpt.getD 0⟩
      else Except.error "ISO8601Error"
    | _ => Except.error "ISO8601Error"
  | _ => Except.error "ISO8601Error"

/-- A parsed JSON value, as produced by response.json(). -/
inductive JValue where
  | jnull : JValue
  | jbool : Bool → JValue
  | jnum : ℚ → JValue
  | jstr : String → JValue
  | jarr : List JValue → JValue
  | jobj : List (String × JValue) → JValue

/-- needle occurs as a contiguous sublist of hay. -/
def isSubstrList (needle hay : List Char) : Bool :=
  (List.range (hay.length + 1)).any (fun i => needle.isPrefixOf (hay.drop i))

/-- Python membership test: k in v.  Key lookup on a dict, element equality
on a list, substring test on a string; TypeError otherwise. -/
def pyIn (k : String) (v : JValue) : Except String Bool :=
  match v with
  | .jobj fs => Except.ok (fs.any (fun p => p.1 == k))
  | .jarr xs => Except.ok (xs.any (fun x => match x with
      | .jstr s => s == k
      | _ => false))
  | .jstr s => Except.ok (isSubstrList k.toList s.toList)
  | _ => Except.error "TypeError"

/-- Python subscription with a string key: v[k].  KeyError on a dict missing
the key, TypeError on non-dict values (list indices must be integers). -/
def pyGetKey (v : JValue) (k : String) : Except String JValue :=
  match v with
  | .jobj fs =>
    match fs.find? (fun p => p.1 == k) with
    | some p => Except.ok p.2
    | none => Except.error "KeyError"
  | _ => Except.error "TypeError"

/-- Python len(v): defined for dicts, lists and strings; TypeError
otherwise. -/
def pyLen (v : JValue) : Except String ℕ :=
  match v with
  | .jobj fs => Except.ok fs.length
  | .jarr xs => Except.ok xs.length
  | .jstr s => Except.ok s.length
  | _ => Except.error "TypeError"

/-- Python v[0]: first element of a list (IndexError when empty); on a dict
a KeyError (the integer key 0 is never present here); TypeError on the
rest. -/
def pyIndexZero (v : JValue) : Except String JValue :=
  match v with
  | .jarr [] => Except.error "IndexError"
  | .jarr (x :: _) => Except.ok x
  | .jobj _ => Except.error "KeyError"
  | _ => Except.error "TypeError"

/-- isodate.parse_duration expects a string argument; any other JSON value
raises a TypeError. -/
def asJStr (v : JValue) : Except String String :=
  match v with
  | .jstr s => Except.ok s
  | _ => Except.error "TypeError"

/-- The response-interpretation block of HereTravelTimeSensor.update
(the body guarded by "if response is not None", given d = response.json()):
returns the value assigned to _state — none for the early returns on a
missing substructure, some minutes from
round(isodate.parse_duration(...).seconds / 60) otherwise; Except.error is
an uncaught Python exception.  The boolean disjunctions of the source
short-circuit, hence the nested early returns. -/
def extract_state (d : JValue) : Except String (Option ℤ) :=
  match pyIn "Res" d with
  | .error e => .error e
  | .ok false => .ok none
  | .ok true =>
    match pyGetKey d "Res" with
    | .error e => .error e
    | .ok res =>
      match pyIn "Connections" res with
      | .error e => .error e
      | .ok false => .ok none
      | .ok true =>
        match pyGetKey res "Connections" with
        | .error e => .error e
        | .ok conns =>
          match pyIn "Connection" conns with
          | .error e => .error e
          | .ok false => .ok none
          | .ok true =>
            match pyGetKey conns "Connection" with
            | .error e => .error e
            | .ok conn =>
              match pyLen conn with
              | .error e => .error e
              | .ok n =>
                if n = 0 then .ok none
                else
                  match pyIndexZero conn with
                  | .error e => .error e
                  | .ok first =>
                    match pyIn "duration" first with
                    | .error e => .error e
                    | .ok false => .ok none
                    | .ok true =>
                      match pyGetKey first "duration" with
                      | .error e => .error e
                      | .ok durv =>
                        match asJStr durv with
                        | .error e => .error e
                        | .ok durs =>
                          match parse_duration durs with
                          | .error e => .error e
                          | .ok td =>
                            .ok (some (pyRound (mkRat td.seconds 60)))

/-- A host entity state object (homeassistant State): entity id, state
string, friendly name, and the latitude/longitude attributes (modelled by
their rendered strings, see the header). -/
structure EntityState where
  entity_id : String
  state : String
  friendly_name : String
  attr_latitude : Option String
  attr_longitude : Option String
  deriving DecidableEq, Repr

/-- The domain of an entity id (and of a raw configuration value):
Python value.split(".", 1)[0], the text before the first dot. -/
def domainOf (s : String) : String :=
  ⟨(s.toList.span (fun c => !(c == '.'))).1⟩

/-- hass.states.get(entity_id): lookup by entity id. -/
def states_get (states : List EntityState) (entity_id : String) :
    Option EntityState :=
  states.find? (fun e => e.entity_id == entity_id)

/-- homeassistant.helpers.location.has_location (host helper, not part of
this repository; modelled from its documented behaviour): true exactly when
the argument is a State carrying both coordinate attributes — in
particular false on Python None. -/
def has_location (e : Option EntityState) : Bool :=
  match e with
  | none => false
  | some ent => ent.attr_latitude.isSome && ent.attr_longitude.isSome

/-- HereTravelTimeSensor._get_location_from_attributes:
"%s,%s" % (attr.get(ATTR_LATITUDE), attr.get(ATTR_LONGITUDE)); a missing
attribute is Python None and renders as "None". -/
def get_location_from_attributes (e : EntityState) : String :=
  e.attr_latitude.getD "None" ++ "," ++ e.attr_longitude.getD "None"

/-- The loop condition of HereTravelTimeSensor._resolve_zone:
entity.domain == "zone" and entity.name == friendly_name.  The scanned name
is always a string, so a Python None argument matches nothing. -/
def zone_matches (friendly_name : Option String) (e : EntityState) : Bool :=
  domainOf e.entity_id == "zone" && some e.friendly_name == friendly_name

/-- HereTravelTimeSensor._resolve_zone: scan hass.states.all() for the
first zone-domain entity whose name equals the argument and return its
formatted coordinates; otherwise return the argument unchanged.  The
argument can be Python None (a failed entity resolution), which matches no
name and passes through. -/
def resolve_zone (states : List EntityState) (friendly_name : Option String) :
    Option String :=
  match states.find? (zone_matches friendly_name) with
  | some e => some (get_location_from_attributes e)
  | none => friendly_name

/-- HereTravelTimeSensor._get_location_from_entity.  Returns the resolved
location together with the new value of the valid_api_connection flag
(the source mutates the field; only the entity-not-found branch assigns it,
setting False). -/
def get_location_from_entity (states : List EntityState) (valid : Bool)
    (entity_id : String) : Option String × Bool :=
  match states_get states entity_id with
  | none => (none, false)
  | some entity =>
    if has_location (some entity) then
      (some (get_location_from_attributes entity), valid)
    else
      match states_get states ("zone." ++ entity.state) with
      | some zone_entity =>
        if has_location (some zone_entity) then
          (some (get_location_from_attributes zone_entity), valid)
        else if ("sensor.".toList).isPrefixOf entity_id.toList then
          (some entity.state, valid)
        else (none, valid)
      | none =>
        if ("sensor.".toList).isPrefixOf entity_id.toList then
          (some entity.state, valid)
        else (none, valid)

/-- The mutable fields of a HereTravelTimeSensor that the update operation
reads or writes.  origin/destination are Option both because the Python
attribute holds None after a failed entity resolution and because the
attribute is unset at construction when the corresponding entity id is set
(the unset attribute is never read: update assigns it first). -/
structure SensorState where
  origin_entity_id : Option String
  destination_entity_id : Option String
  origin : Option String
  destination : Option String
  state : Option ℤ
  min_distance : ℕ
  valid_api_connection : Bool
  deriving DecidableEq, Repr

/-- The external world an update runs against: the host states, the
geopy distance computation (uninterpreted oracle, see the header) and the
outcome of requests.get + response.json() as a function of the dep and arr
query parameters (Except.error = a transport or JSON-decode exception). -/
structure Env where
  states : List EntityState
  dist : ℚ × ℚ → ℚ × ℚ → ℚ
  http : String → String → Except String JValue

/-- The resolution phase of HereTravelTimeSensor.update (lines 128 to 139):
entity re-resolution for the origin, then for the destination (threading
the valid_api_connection flag), then zone resolution of both.  Returns the
resolved origin, the resolved destination and the new flag. -/
def resolve_phase (env : Env) (s : SensorState) :
    Option String × Option String × Bool :=
  let (o, v1) :=
    match s.origin_entity_id with
    | some eid => get_location_from_entity env.states s.valid_api_connection eid
    | none => (s.origin, s.valid_api_connection)
  let (d, v2) :=
    match s.destination_entity_id with
    | some eid => get_location_from_entity env.states v1 eid
    | none => (s.destination, v1)
  let d2 := resolve_zone env.states d
  let o2 := resolve_zone env.states o
  (o2, d2, v2)

/-- HereTravelTimeSensor.update, instrumented: returns the sensor state
after the call (including the mutations made before an exception was
raised), the exception when one was raised, and whether the HTTP request
was issued.  Mirrors the source line by line: the resolution phase, the
presence guard, coordinate parsing (origin first), the proximity gate, the
request, and response interpretation. -/
def update_aux (env : Env) (s : SensorState) :
    SensorState × Option String × Bool :=
  let (o2, d2, v2) := resolve_phase env s
  let s1 := { s with origin := o2, destination := d2, valid_api_connection := v2 }
  match o2, d2 with
  | some os, some ds =>
    (match get_lat_long os with
    | .error e => (s1, some e, false)
    | .ok op =>
      match get_lat_long ds with
      | .error e => (s1, some e, false)
      | .ok dp =>
        let distance := env.dist op dp
        if distance < (s1.min_distance : ℚ) then
          ({ s1 with state := none }, none, false)
        else
          match env.http os ds with
          | .error e => (s1, some e, true)
          | .ok body =>
            match extract_state body with
            | .error e => (s1, some e, true)
            | .ok none => ({ s1 with state := none }, none, true)
            | .ok (some m) => ({ s1 with state := some m }, none, true))
  | _, _ => (s1, none, false)

/-- HereTravelTimeSensor.update as the caller sees it: the new state and
the raised exception, if any. -/
def update (env : Env) (s : SensorState) : SensorState × Option String :=
  ((update_aux env s).1, (update_aux env s).2.1)

/-- TRACKABLE_DOMAINS. -/
def TRACKABLE_DOMAINS : List String := ["device_tracker", "sensor", "zone"]

/-- The field initialisation of HereTravelTimeSensor.__init__ (before the
first update): state None, valid_api_connection True, and the
origin/destination configuration values split into an entity id or a
static string by the trackable-domain test. -/
def mk_sensor (origin destination : String) (min_distance : ℕ) : SensorState :=
  { origin_entity_id :=
      if TRACKABLE_DOMAINS.contains (domainOf origin) then some origin else none
    destination_entity_id :=
      if TRACKABLE_DOMAINS.contains (domainOf destination)
      then some destination else none
    origin :=
      if TRACKABLE_DOMAINS.contains (domainOf origin) then none else some origin
    destination :=
      if TRACKABLE_DOMAINS.contains (domainOf destination)
      then none else some destination
    state := none
    min_distance := min_distance
    valid_api_connection := true }

/-- The try/except around the first update in __init__: the state after
construction.  An exception is caught and flips valid_api_connection to
False on the state as mutated so far. -/
def init_sensor (env : Env) (origin destination : String) (min_distance : ℕ) :
    SensorState :=
  match update_aux env (mk_sensor origin destination min_distance) with
  | (s1, none, _) => s1
  | (s1, some _, _) => { s1 with valid_api_connection := false }

/-- run_setup: add_devices([sensor]) runs exactly when
sensor.valid_api_connection holds after construction. -/
def run_setup_registers (env : Env) (origin destination : String)
    (min_distance : ℕ) : Bool :=
  (init_sensor env origin destination min_distance).valid_api_connection

/-- DEFAULT_NAME, the module-level constant. -/
def DEFAULT_NAME : String := "Here Travel Time"

/-- The display name computed in run_setup:
config.get(CONF_NAME, "Here Public Transport") — the fallback is the
hard-coded literal of line 53, not DEFAULT_NAME. -/
def setup_name (conf_name : Option String) : String :=
  conf_name.getD "Here Public Transport"

/-! ## Helper lemmas -/

/-- Lookup of a key in the field list of a JSON object (specification-side
description of the Python dict the jobj constructor models). -/
def objGet (fs : List (String × JValue)) (k : String) : Option JValue :=
  (fs.find? (fun p => p.1 == k)).map (fun p => p.2)

theorem objGet_none_pyIn {fs : List (String × JValue)} {k : String}
    (h : objGet fs k = none) : pyIn k (.jobj fs) = .ok false := by
  simp only [objGet, Option.map_eq_none', List.find?_eq_none] at h
  simp only [pyIn, Except.ok.injEq, List.any_eq_false]
  exact h

theorem objGet_some_pyIn {fs : List (String × JValue)} {k : String}
    {v : JValue} (h : objGet fs k = some v) : pyIn k (.jobj fs) = .ok true := by
  simp only [objGet, Option.map_eq_some'] at h
  obtain ⟨p, hp, _⟩ := h
  have hpk := List.find?_some hp
  have hmem := List.mem_of_find?_eq_some hp
  simp only [pyIn, Except.ok.injEq, List.any_eq_true]
  exact ⟨p, hmem, hpk⟩

theorem objGet_some_pyGetKey {fs : List (String × JValue)} {k : String}
    {v : JValue} (h : objGet fs k = some v) :
    pyGetKey (.jobj fs) k = .ok v := by
  simp only [objGet, Option.map_eq_some'] at h
  obtain ⟨p, hp, hv⟩ := h
  simp only [pyGetKey, hp, hv]

theorem pyRound_nonneg {q : ℚ} (h : 0 ≤ q) : 0 ≤ pyRound q := by
  have hn : 0 ≤ q.num := Rat.num_nonneg.mpr h
  have hd : (0 : ℤ) ≤ (q.den : ℤ) := Int.ofNat_nonneg q.den
  have hf : 0 ≤ Int.fdiv q.num (q.den : ℤ) := Int.fdiv_nonneg hn hd
  unfold pyRound
  dsimp only
  split
  · exact hf
  · split
    · omega
    · split
      · exact hf
      · omega

theorem mkRat_nat_nonneg (a b : ℕ) : 0 ≤ mkRat (a : ℤ) b := by
  rw [Rat.mkRat_eq_div]
  positivity

theorem extract_state_ok_nonneg {d : JValue} {m : ℤ}
    (h : extract_state d = .ok (some m)) : 0 ≤ m := by
  unfold extract_state at h
  iterate 14 (all_goals try split at h)
  all_goals try exact Except.noConfusion h
  all_goals try exact Option.noConfusion (Except.ok.inj h)
  have h2 := Option.some.inj (Except.ok.inj h)
  rw [← h2]
  exact pyRound_nonneg (mkRat_nat_nonneg _ _)

theorem takeDigits_append : ∀ cs : List Char,
    (takeDigits cs).1 ++ (takeDigits cs).2 = cs := by
  intro cs
  induction cs with
  | nil => rfl
  | cons c cs ih =>
    unfold takeDigits
    cases h : c.isDigit with
    | true =>
      rcases htd : takeDigits cs with ⟨ds, rest⟩
      rw [htd] at ih
      simp [h, htd, ih]
    | false => simp [h]

theorem takeDigits_digits : ∀ cs : List Char, ∀ c ∈ (takeDigits cs).1,
    c.isDigit = true := by
  intro cs
  induction cs with
  | nil => intro c hc; cases hc
  | cons a cs ih =>
    unfold takeDigits
    cases h : a.isDigit with
    | true =>
      rcases htd : takeDigits cs with ⟨ds, rest⟩
      rw [htd] at ih
      intro c hc
      simp only [h, if_true, htd] at hc
      rcases List.mem_cons.mp hc with h1 | h2
      · rw [h1]; exact h
      · exact ih c h2
    | false => intro c hc; simp [h] at hc

theorem span_all_append {p : Char → Bool} : ∀ (l r : List Char),
    (∀ c ∈ l, p c = true) →
    (∀ c rs, r = c :: rs → p c = false) →
    (l ++ r).span p = (l, r) := by
  intro l r hl hr
  rw [List.span_eq_take_drop]
  induction l with
  | nil =>
    cases r with
    | nil => simp
    | cons c rs =>
      have hc := hr c rs rfl
      simp [List.takeWhile_cons, List.dropWhile_cons, hc]
  | cons a l ih =>
    have ha := hl a (List.mem_cons_self a l)
    have hl2 : ∀ c ∈ l, p c = true := fun c hc => hl c (List.mem_cons_of_mem a hc)
    have := ih hl2
    simp only [List.cons_append, List.takeWhile_cons, List.dropWhile_cons, ha,
      if_true, Prod.mk.injEq] at this ⊢
    exact ⟨congrArg (a :: ·) this.1, this.2⟩

theorem digit_not_dot {c : Char} (h : c.isDigit = true) : (c == '.') = false := by
  cases hc : c == '.' with
  | false => rfl
  | true =>
    have : c = '.' := by exact beq_iff_eq.mp hc
    rw [this] at h
    exact absurd h (by decide)

theorem digit_not_comma {c : Char} (h : c.isDigit = true) : (c == ',') = false := by
  cases hc : c == ',' with
  | false => rfl
  | true =>
    have : c = ',' := by exact beq_iff_eq.mp hc
    rw [this] at h
    exact absurd h (by decide)

theorem splitDot_no_dot {w : List Char}
    (hw : ∀ c ∈ w, (c == '.') = false) : splitDot w = (w, none) := by
  unfold splitDot
  have hspan : (w ++ ([] : List Char)).span (fun c => !(c == '.')) = (w, []) :=
    span_all_append w []
      (fun c hc => by rw [hw c hc]; rfl)
      (fun c rs hrs => by cases hrs)
  rw [List.append_nil] at hspan
  rw [hspan]

theorem splitDot_with_dot {w f : List Char}
    (hw : ∀ c ∈ w, (c == '.') = false) :
    splitDot (w ++ '.' :: f) = (w, some f) := by
  unfold splitDot
  have hspan : (w ++ '.' :: f).span (fun c => !(c == '.')) = (w, '.' :: f) :=
    span_all_append w ('.' :: f)
      (fun c hc => by rw [hw c hc]; rfl)
      (fun c rs hrs => by
        cases hrs
        rfl)
  rw [hspan]

theorem isDigits_of_all {l : List Char} (hne : l ≠ [])
    (h : ∀ c ∈ l, c.isDigit = true) : isDigits l = true := by
  unfold isDigits
  cases l with
  | nil => exact absurd rfl hne
  | cons a l =>
    simp only [List.isEmpty_cons, Bool.not_false, Bool.true_and, List.all_eq_true]
    exact h

theorem matchNumber_sound {cs g rest : List Char}
    (h : matchNumber cs = some (g, rest)) :
    cs = g ++ rest ∧ decNumFull g = true ∧ (∀ c ∈ g, (c == ',') = false) := by
  have hcs := takeDigits_append cs
  have hdig := takeDigits_digits cs
  unfold matchNumber at h
  rcases htd : takeDigits cs with ⟨ds, r0⟩
  rw [htd] at h hcs hdig
  simp only at hcs hdig
  cases ds with
  | nil => exact absurd h (by simp)
  | cons d ds2 =>
    have hnodot : ∀ c ∈ d :: ds2, (c == '.') = false :=
      fun c hc => digit_not_dot (hdig c hc)
    have hnocomma : ∀ c ∈ d :: ds2, (c == ',') = false :=
      fun c hc => digit_not_comma (hdig c hc)
    have hfull : decNumFull (d :: ds2) = true := by
      unfold decNumFull
      rw [splitDot_no_dot hnodot]
      exact isDigits_of_all (by simp) hdig
    cases r0 with
    | nil =>
      simp only [Option.some.injEq, Prod.mk.injEq] at h
      obtain ⟨hg, hr⟩ := h
      subst hg; subst hr
      exact ⟨by rw [← hcs], hfull, hnocomma⟩
    | cons c r2 =>
      by_cases hc : c = '.'
      · subst hc
        dsimp only at h
        split at h
        · rename_i rest2 heq2
          cases (List.cons.inj heq2).2
          rcases htd2 : takeDigits r2 with ⟨fs, r3⟩
          have hr2 := takeDigits_append r2
          have hdig2 := takeDigits_digits r2
          rw [htd2] at h hr2 hdig2
          simp only at hr2 hdig2
          cases fs with
          | nil =>
            simp only [Option.some.injEq, Prod.mk.injEq] at h
            obtain ⟨hg, hr⟩ := h
            subst hg; subst hr
            exact ⟨by rw [← hcs], hfull, hnocomma⟩
          | cons f fs2 =>
            simp only [Option.some.injEq, Prod.mk.injEq] at h
            obtain ⟨hg, hr⟩ := h
            subst hg; subst hr
            refine ⟨?_, ?_, ?_⟩
            · rw [← hcs, ← hr2]
              simp
            · unfold decNumFull
              rw [splitDot_with_dot hnodot]
              dsimp only
              rw [isDigits_of_all (by simp) hdig, isDigits_of_all (by simp) hdig2]
              rfl
            · intro c hc
              rcases List.mem_append.mp hc with h1 | h2
              · exact hnocomma c h1
              · rcases List.mem_cons.mp h2 with h3 | h4
                · rw [h3]; rfl
                · exact digit_not_comma (hdig2 c h4)
        · rename_i hne
          exact (hne r2 rfl).elim
      · dsimp only at h
        split at h
        · rename_i rest2 heq2
          exact absurd (List.cons.inj heq2).1 hc
        · rename_i hne
          simp only [Option.some.injEq, Prod.mk.injEq] at h
          obtain ⟨hg, hr⟩ := h
          subst hg; subst hr
          exact ⟨by rw [← hcs], hfull, hnocomma⟩

theorem coordMatch_sound {s p q : String}
    (h : coordMatch s = some (p, q)) :
    ∃ rest, s.toList = (p.toList ++ ',' :: q.toList) ++ rest ∧
      coordFull ⟨p.toList ++ ',' :: q.toList⟩ = true := by
  unfold coordMatch at h
  rcases hm1 : matchNumber s.toList with _ | ⟨g1, r1⟩
  · rw [hm1] at h; exact absurd h (by simp)
  · rw [hm1] at h
    obtain ⟨hsplit1, hfull1, hnc1⟩ := matchNumber_sound hm1
    cases r1 with
    | nil => exact absurd h (by simp)
    | cons c r2 =>
      by_cases hc : c = ','
      · subst hc
        dsimp only at h
        split at h
        · rename_i rest2 heq2
          cases (List.cons.inj heq2).2
          rcases hm2 : matchNumber r2 with _ | ⟨g2, r3⟩
          · rw [hm2] at h; exact absurd h (by simp)
          · rw [hm2] at h
            obtain ⟨hsplit2, hfull2, hnc2⟩ := matchNumber_sound hm2
            simp only [Option.some.injEq, Prod.mk.injEq] at h
            obtain ⟨hp, hq⟩ := h
            subst hp; subst hq
            refine ⟨r3, ?_, ?_⟩
            · show s.toList = (g1 ++ ',' :: g2) ++ r3
              rw [hsplit1, hsplit2]
              simp
            · show coordFull ⟨g1 ++ ',' :: g2⟩ = true
              unfold coordFull
              have htl : (String.mk (g1 ++ ',' :: g2)).toList = g1 ++ ',' :: g2 := rfl
              rw [htl]
              have hspan : (g1 ++ ',' :: g2).span (fun c => !(c == ',')) =
                  (g1, ',' :: g2) :=
                span_all_append g1 (',' :: g2)
                  (fun c hc => by rw [hnc1 c hc]; rfl)
                  (fun c rs hrs => by cases hrs; rfl)
              rw [hspan]
              dsimp only
              rw [hfull1, hfull2]
              rfl
        · rename_i hne
          exact (hne r2 rfl).elim
      · dsimp only at h
        split at h
        · rename_i rest2 heq2
          exact absurd (List.cons.inj heq2).1 hc
        · exact absurd h (by simp)

theorem coordMatch_none_of_noPrefix {s : String}
    (h : noPrefixCoordMatch s = true) : coordMatch s = none := by
  rcases hm : coordMatch s with _ | ⟨p, q⟩
  · rfl
  · obtain ⟨rest, hsp, hfull⟩ := coordMatch_sound hm
    unfold noPrefixCoordMatch at h
    rw [List.all_eq_true] at h
    have hmem : (p.toList ++ ',' :: q.toList).length ∈
        List.range (s.toList.length + 1) := by
      apply List.mem_range.mpr
      rw [hsp]
      simp [List.length_append]
      omega
    have hx := h _ hmem
    rw [hsp, List.take_left] at hx
    rw [hfull] at hx
    exact absurd hx (by decide)

/-! ## Concrete fixtures used by the claim theorems -/

/-- A routing response whose first connection carries the given ISO-8601
duration (the happy-path JSON shape of the API). -/
def resp_with_duration (dur : String) : JValue :=
  .jobj [("Res", .jobj [("Connections", .jobj [("Connection",
    .jarr [.jobj [("duration", .jstr dur)]])])])]

/-- A host entity with no coordinate attributes, whose state names no zone,
and which is not a sensor-domain entity. -/
def tracker_no_location : EntityState :=
  ⟨"device_tracker.phone", "not_home", "Phone", none, none⟩

/-- A zone entity named Home that carries no coordinate attributes. -/
def zone_no_coords : EntityState :=
  ⟨"zone.home", "zoning", "Home", none, none⟩

/-- An environment with no host entities, a constant distance of 5 meters
and a transport failure on any request. -/
def small_dist_env : Env :=
  ⟨[], fun _ _ => mkRat 5 1, fun _ _ => Except.error "ConnectionError"⟩

/-- An environment with no host entities, a constant distance of 250 meters
and a fixed 25-minute routing response. -/
def large_dist_env : Env :=
  ⟨[], fun _ _ => mkRat 250 1,
    fun _ _ => Except.ok (resp_with_duration "PT25M")⟩

/-- A sensor state with two static coordinate origins 100 meters apart in
configuration and a previously published value of 7 minutes. -/
def static_sensor : SensorState :=
  ⟨none, none, some "52.1,4.3", some "52.2,4.4", some 7, 100, true⟩

/-- A sensor whose origin is a missing tracker entity and which previously
published 25 minutes. -/
def stale_sensor : SensorState :=
  ⟨some "device_tracker.gone", none, none, some "52.1,4.3", some 25, 100, true⟩

/-- A sensor whose static origin is the signed coordinate string of the
spec example, which the unsigned pattern cannot match. -/
def neg_origin_sensor : SensorState :=
  ⟨none, none, some "-52.1,4.3", some "52.1,4.3", none, 100, true⟩

/-! ## Claim theorems -/

/-- C1: the code computes round(isodate.parse_duration(d).seconds / 60);
timedelta.seconds is the seconds WITHIN the last day, so for the 25-hour
duration P1DT1H (90000 total seconds) the published value is 60, while the
claim — round the total seconds over 60 — demands 1500.  The sub-day
examples of the spec evaluate as documented with ties to even: PT25M gives
25 and PT90S gives round(1.5) = 2. -/
theorem c1_duration_minutes_drops_days :
    parse_duration "P1DT1H" = .ok ⟨90000⟩ ∧
    extract_state (resp_with_duration "P1DT1H") = .ok (some 60) ∧
    pyRound (mkRat 90000 60) = 1500 ∧
    (60 : ℤ) ≠ 1500 ∧
    extract_state (resp_with_duration "PT25M") = .ok (some 25) ∧
    extract_state (resp_with_duration "PT90S") = .ok (some 2) := by
  refine ⟨by decide, by decide, by decide, by decide, by decide, by decide⟩

/-- C8: with the name key absent, run_setup publishes the hard-coded
default "Here Public Transport" (line 53), not the unused module constant
DEFAULT_NAME = "Here Travel Time" the claim states. -/
theorem c8_default_name_mismatch :
    setup_name none = "Here Public Transport" ∧
    DEFAULT_NAME = "Here Travel Time" ∧
    setup_name none ≠ DEFAULT_NAME := by
  refine ⟨rfl, rfl, by decide⟩

/-- C10: a zone entity matched by name but carrying no coordinate
attributes resolves to the literal string "None,None" (not to absent), and
the coordinate parse of the proximity gate then raises AttributeError
rather than handling it. -/
theorem c10_zone_without_coords_none_none (states : List EntityState)
    (v : String) (e : EntityState)
    (hfind : states.find? (zone_matches (some v)) = some e)
    (hlat : e.attr_latitude = none) (hlong : e.attr_longitude = none) :
    resolve_zone states (some v) = some "None,None" ∧
    get_lat_long "None,None" = .error "AttributeError" := by
  constructor
  · unfold resolve_zone
    rw [hfind]
    dsimp only
    unfold get_location_from_attributes
    rw [hlat, hlong]
    decide
  · decide

/-- C10 witness: the concrete zone named Home without coordinates. -/
theorem c10_zone_without_coords_witness :
    [zone_no_coords].find? (zone_matches (some "Home")) = some zone_no_coords ∧
    (resolve_zone [zone_no_coords] (some "Home") = some "None,None" ∧
     get_lat_long "None,None" = .error "AttributeError") :=
  ⟨by decide,
   c10_zone_without_coords_none_none [zone_no_coords] "Home" zone_no_coords
     (by decide) rfl rfl⟩

/-- C2 counterexample: a concrete fallthrough — the target entity exists,
has no coordinate attributes, its state names no zone, and it is not a
sensor entity — returns absent but leaves valid_api_connection True,
whereas the claim requires the flag to become False. -/
theorem c2_fallthrough_flag_counterexample :
    get_location_from_entity [tracker_no_location] true
      "device_tracker.phone" = (none, true) ∧
    (none, true) ≠ ((none : Option String), false) := by
  refine ⟨by decide, by decide⟩

/-- C2 as amended: on the fallthrough path (entity found, no coordinate
attributes, state matching no locatable zone, not a sensor entity) the
resolution returns absent and leaves valid_api_connection UNCHANGED; the
flag is assigned False only on the entity-not-found branch. -/
theorem c2_fallthrough_returns_none_flag_unchanged
    (states : List EntityState) (valid : Bool) (eid : String) (e : EntityState)
    (hget : states_get states eid = some e)
    (hloc : has_location (some e) = false)
    (hzone : has_location (states_get states ("zone." ++ e.state)) = false)
    (hsens : ("sensor.".toList).isPrefixOf eid.toList = false) :
    get_location_from_entity states valid eid = (none, valid) := by
  unfold get_location_from_entity
  rw [hget]
  dsimp only
  rw [hloc]
  simp only [Bool.false_eq_true, if_false]
  rcases hz : states_get states ("zone." ++ e.state) with _ | z
  · dsimp only
    rw [hsens]
    simp only [Bool.false_eq_true, if_false]
  · rw [hz] at hzone
    dsimp only
    rw [hzone]
    simp only [Bool.false_eq_true, if_false]
    rw [hsens]
    simp only [Bool.false_eq_true, if_false]

/-- C2 witness: the amended theorem applied to the concrete fallthrough
entity. -/
theorem c2_fallthrough_witness :
    get_location_from_entity [tracker_no_location] true
      "device_tracker.phone" = (none, true) :=
  c2_fallthrough_returns_none_flag_unchanged [tracker_no_location] true
    "device_tracker.phone" tracker_no_location
    (by decide) (by decide) (by decide) (by decide)

/-- C5: for every JSON response body in which Res, Res.Connections or
Res.Connections.Connection is missing, or the connection list is empty, or
the first connection lacks a duration field, the response-interpretation
block sets the state to unknown (None) and raises no exception. -/
theorem c5_missing_substructure_yields_none (d : JValue)
    (h : (∃ fs, d = .jobj fs ∧ objGet fs "Res" = none)
       ∨ (∃ fs rs, d = .jobj fs ∧ objGet fs "Res" = some (.jobj rs)
            ∧ objGet rs "Connections" = none)
       ∨ (∃ fs rs cs, d = .jobj fs ∧ objGet fs "Res" = some (.jobj rs)
            ∧ objGet rs "Connections" = some (.jobj cs)
            ∧ objGet cs "Connection" = none)
       ∨ (∃ fs rs cs, d = .jobj fs ∧ objGet fs "Res" = some (.jobj rs)
            ∧ objGet rs "Connections" = some (.jobj cs)
            ∧ objGet cs "Connection" = some (.jarr []))
       ∨ (∃ fs rs cs c0 tl, d = .jobj fs ∧ objGet fs "Res" = some (.jobj rs)
            ∧ objGet rs "Connections" = some (.jobj cs)
            ∧ objGet cs "Connection" = some (.jarr (.jobj c0 :: tl))
            ∧ objGet c0 "duration" = none)) :
    extract_state d = .ok none := by
  rcases h with ⟨fs, hd, h1⟩ | ⟨fs, rs, hd, h1, h2⟩ | ⟨fs, rs, cs, hd, h1, h2, h3⟩
    | ⟨fs, rs, cs, hd, h1, h2, h3⟩ | ⟨fs, rs, cs, c0, tl, hd, h1, h2, h3, h4⟩
  · subst hd
    unfold extract_state
    rw [objGet_none_pyIn h1]
  · subst hd
    unfold extract_state
    rw [objGet_some_pyIn h1, objGet_some_pyGetKey h1]
    dsimp only
    rw [objGet_none_pyIn h2]
  · subst hd
    unfold extract_state
    rw [objGet_some_pyIn h1, objGet_some_pyGetKey h1]
    dsimp only
    rw [objGet_some_pyIn h2, objGet_some_pyGetKey h2]
    dsimp only
    rw [objGet_none_pyIn h3]
  · subst hd
    unfold extract_state
    rw [objGet_some_pyIn h1, objGet_some_pyGetKey h1]
    dsimp only
    rw [objGet_some_pyIn h2, objGet_some_pyGetKey h2]
    dsimp only
    rw [objGet_some_pyIn h3, objGet_some_pyGetKey h3]
    rfl
  · subst hd
    unfold extract_state
    rw [objGet_some_pyIn h1, objGet_some_pyGetKey h1]
    dsimp only
    rw [objGet_some_pyIn h2, objGet_some_pyGetKey h2]
    dsimp only
    rw [objGet_some_pyIn h3, objGet_some_pyGetKey h3]
    dsimp only [pyLen, List.length_cons]
    rw [if_neg (Nat.succ_ne_zero _)]
    dsimp only [pyIndexZero]
    rw [objGet_none_pyIn h4]

/-- C5 witness: the theorem applied to each of the five concrete shapes. -/
theorem c5_missing_substructure_witness :
    extract_state (.jobj [("Foo", .jnull)]) = .ok none ∧
    extract_state (.jobj [("Res", .jobj [])]) = .ok none ∧
    extract_state (.jobj [("Res", .jobj [("Connections", .jobj [])])])
      = .ok none ∧
    extract_state (.jobj [("Res", .jobj [("Connections",
      .jobj [("Connection", .jarr [])])])]) = .ok none ∧
    extract_state (.jobj [("Res", .jobj [("Connections",
      .jobj [("Connection", .jarr [.jobj [("x", .jnum 1)]])])])]) = .ok none :=
  ⟨c5_missing_substructure_yields_none _ (Or.inl ⟨_, rfl, rfl⟩),
   c5_missing_substructure_yields_none _ (Or.inr (Or.inl ⟨_, _, rfl, rfl, rfl⟩)),
   c5_missing_substructure_yields_none _
     (Or.inr (Or.inr (Or.inl ⟨_, _, _, rfl, rfl, rfl, rfl⟩))),
   c5_missing_substructure_yields_none _
     (Or.inr (Or.inr (Or.inr (Or.inl ⟨_, _, _, rfl, rfl, rfl, rfl⟩)))),
   c5_missing_substructure_yields_none _
     (Or.inr (Or.inr (Or.inr (Or.inr ⟨_, _, _, _, _, rfl, rfl, rfl, rfl, rfl⟩))))⟩

/-- C3 counterexample: a concrete update whose origin entity cannot be
resolved keeps the previously computed 25 minutes as the published state
instead of the unknown (None) the claim requires. -/
theorem c3_stale_state_counterexample :
    (resolve_phase small_dist_env stale_sensor).1 = none ∧
    (update_aux small_dist_env stale_sensor).1.state = some 25 ∧
    (some 25 : Option ℤ) ≠ none := by
  refine ⟨rfl, rfl, by decide⟩

/-- C3 as amended: when resolution fails to produce a usable origin or
destination, the update leaves the PRIOR state untouched (a previously
computed value stays published, possibly stale) and raises nothing; only
the gated and response paths write the state. -/
theorem c3_resolution_failure_keeps_prior_state (env : Env) (s : SensorState)
    (h : (resolve_phase env s).1 = none ∨ (resolve_phase env s).2.1 = none) :
    (update_aux env s).1.state = s.state ∧ (update_aux env s).2.1 = none := by
  rcases hr : resolve_phase env s with ⟨o, d, v⟩
  rw [hr] at h
  unfold update_aux
  rw [hr]
  dsimp only at h ⊢
  rcases h with h | h
  · subst h
    cases d
    · exact ⟨rfl, rfl⟩
    · exact ⟨rfl, rfl⟩
  · subst h
    cases o
    · exact ⟨rfl, rfl⟩
    · exact ⟨rfl, rfl⟩

/-- C3 witness: the amended theorem at the concrete stale sensor. -/
theorem c3_resolution_failure_witness :
    (update_aux small_dist_env stale_sensor).1.state = stale_sensor.state ∧
    (update_aux small_dist_env stale_sensor).2.1 = none :=
  c3_resolution_failure_keeps_prior_state small_dist_env stale_sensor
    (Or.inl rfl)

/-- C6: with both locations resolved to valid "lat,long" strings, if the
computed distance between the parsed points is strictly below the
configured threshold the update sets the state to unknown (None) and — for
every possible HTTP oracle, hence without issuing the request — returns
immediately; at or beyond the threshold the gate does not suppress the
call (the request is issued).  The geodesic computation itself is the
uninterpreted env.dist oracle, per the note of the spec that only the
threshold classification is a contract. -/
theorem c6_proximity_gate_classification (env : Env) (s : SensorState)
    (os ds : String) (op dp : ℚ × ℚ) (v : Bool)
    (hr : resolve_phase env s = (some os, some ds, v))
    (ho : get_lat_long os = .ok op)
    (hd : get_lat_long ds = .ok dp) :
    (env.dist op dp < (s.min_distance : ℚ) →
      update_aux env s =
        ({ s with
            origin := some os
            destination := some ds
            valid_api_connection := v
            state := none }, none, false))
    ∧ (¬ env.dist op dp < (s.min_distance : ℚ) →
      (update_aux env s).2.2 = true) := by
  unfold update_aux
  rw [hr]
  dsimp only
  rw [ho]
  dsimp only
  rw [hd]
  dsimp only
  constructor
  · intro hlt
    rw [if_pos hlt]
  · intro hge
    rw [if_neg hge]
    cases hh : env.http os ds with
    | error e => rfl
    | ok body =>
      dsimp only
      cases hx : extract_state body with
      | error e => rfl
      | ok st =>
        cases st with
        | none => rfl
        | some m => rfl

/-- C6 witness: a concrete 5-meter pair against the default 100-meter
threshold is gated. -/
theorem c6_proximity_gate_witness :
    update_aux small_dist_env static_sensor =
      ({ static_sensor with
          origin := some "52.1,4.3"
          destination := some "52.2,4.4"
          valid_api_connection := true
          state := none }, none, false) :=
  (c6_proximity_gate_classification small_dist_env static_sensor
    "52.1,4.3" "52.2,4.4" (mkRat 521 10, mkRat 43 10)
    (mkRat 522 10, mkRat 44 10) true rfl (by decide) (by decide)).1
    (by decide)

/-- C7: a construction-time failure never escapes and keeps the sensor off
the host — if the first update raises any exception (malformed coordinate
strings, network errors, ...) it is caught by the try/except of __init__
and the valid_api_connection flag becomes False, and if it instead trips
the non-raising entity-not-found branch the flag is already False; in both
cases run_setup does not register the sensor (add_devices is guarded by
the flag). -/
theorem c7_construction_failure_contained (env : Env)
    (o d : String) (m : ℕ)
    (h : (∃ e, (update_aux env (mk_sensor o d m)).2.1 = some e)
       ∨ ((update_aux env (mk_sensor o d m)).2.1 = none
          ∧ (update_aux env (mk_sensor o d m)).1.valid_api_connection
              = false)) :
    run_setup_registers env o d m = false ∧
    (init_sensor env o d m).valid_api_connection = false := by
  unfold run_setup_registers init_sensor
  rcases hu : update_aux env (mk_sensor o d m) with ⟨s1, exc, b⟩
  rw [hu] at h
  dsimp only at h
  rcases h with ⟨e, h⟩ | ⟨h1, h2⟩
  · subst h
    dsimp only
    exact ⟨rfl, rfl⟩
  · subst h1
    dsimp only
    exact ⟨h2, h2⟩

/-- C7 witness: a malformed (signed) static origin raises AttributeError
during the first update; the sensor is not registered. -/
theorem c7_construction_failure_witness :
    run_setup_registers small_dist_env "-1,2" "1,2" 100 = false ∧
    (init_sensor small_dist_env "-1,2" "1,2" 100).valid_api_connection
      = false :=
  c7_construction_failure_contained small_dist_env "-1,2" "1,2" 100
    (Or.inl ⟨"AttributeError", by decide⟩)

/-- C9: the update preserves the state invariant — if the state was None
or a non-negative number of minutes before an update, it is again None or
a non-negative number of minutes afterwards; the written value
round(seconds/60) is non-negative because timedelta.seconds lies in
[0, 86400).  Together with state = None at construction this gives the
claim for every update that completes without raising. -/
theorem c9_state_none_or_nonneg_minutes :
    (∀ o d : String, ∀ m : ℕ, (mk_sensor o d m).state = none) ∧
    (∀ (env : Env) (s : SensorState),
      (s.state = none ∨ ∃ n : ℤ, s.state = some n ∧ 0 ≤ n) →
      (update_aux env s).2.1 = none →
      ((update_aux env s).1.state = none ∨
        ∃ n : ℤ, (update_aux env s).1.state = some n ∧ 0 ≤ n)) := by
  constructor
  · intro o d m
    rfl
  intro env s hprev hok
  clear hok
  unfold update_aux
  rcases hr : resolve_phase env s with ⟨o, d, v⟩
  dsimp only
  cases o with
  | none => exact hprev
  | some os =>
    cases d with
    | none => exact hprev
    | some ds =>
      dsimp only
      cases hgo : get_lat_long os with
      | error e => exact hprev
      | ok op =>
        dsimp only
        cases hgd : get_lat_long ds with
        | error e => exact hprev
        | ok dp =>
          dsimp only
          split
          · left; rfl
          · cases hh : env.http os ds with
            | error e => exact hprev
            | ok body =>
              dsimp only
              cases hx : extract_state body with
              | error e => exact hprev
              | ok st =>
                cases st with
                | none => left; rfl
                | some m =>
                  right
                  exact ⟨m, rfl, extract_state_ok_nonneg hx⟩

/-- C9 witness: a successful 25-minute update from the previous value 7. -/
theorem c9_state_invariant_witness :
    (update_aux large_dist_env static_sensor).1.state = none ∨
      ∃ n : ℤ, (update_aux large_dist_env static_sensor).1.state = some n
        ∧ 0 ≤ n :=
  c9_state_none_or_nonneg_minutes.2 large_dist_env static_sensor
    (Or.inr ⟨7, rfl, by decide⟩) (by decide)

/-- C4 as amended: the match is anchored only at the START of the string
(re.match), so the coordinate parse raises AttributeError — propagating
out of update with no request issued and the state untouched — exactly
when NO PREFIX of the string matches digits[.digits],digits[.digits]; in
particular for signed coordinates such as "-52.1,4.3".  A string with a
matching proper prefix (full text not matching) parses the prefix
silently instead of raising. -/
theorem c4_no_prefix_match_raises (env : Env) (s : SensorState)
    (os ds : String) (v : Bool)
    (hr : resolve_phase env s = (some os, some ds, v))
    (h : noPrefixCoordMatch os = true ∨
         ((∃ p, get_lat_long os = .ok p) ∧ noPrefixCoordMatch ds = true)) :
    (update_aux env s).2.1 = some "AttributeError" ∧
    (update_aux env s).1.state = s.state ∧
    (update_aux env s).2.2 = false := by
  unfold update_aux
  rw [hr]
  dsimp only
  rcases h with h | ⟨⟨p, hp⟩, h2⟩
  · have hno : coordMatch os = none := coordMatch_none_of_noPrefix h
    have hgo : get_lat_long os = .error "AttributeError" := by
      unfold get_lat_long; rw [hno]
    rw [hgo]
    exact ⟨rfl, rfl, rfl⟩
  · rw [hp]
    dsimp only
    have hno : coordMatch ds = none := coordMatch_none_of_noPrefix h2
    have hgd : get_lat_long ds = .error "AttributeError" := by
      unfold get_lat_long; rw [hno]
    rw [hgd]
    exact ⟨rfl, rfl, rfl⟩

/-- C4 witness: the signed origin of the spec example raises and
propagates. -/
theorem c4_no_prefix_match_witness :
    (update_aux small_dist_env neg_origin_sensor).2.1
        = some "AttributeError" ∧
    (update_aux small_dist_env neg_origin_sensor).1.state
        = neg_origin_sensor.state ∧
    (update_aux small_dist_env neg_origin_sensor).2.2 = false :=
  c4_no_prefix_match_raises small_dist_env neg_origin_sensor
    "-52.1,4.3" "52.1,4.3" true rfl (Or.inl (by decide))

/-- C4 counterexample: "52.1,4.3x" does not match the grammar
digits[.digits],digits[.digits] as full text, yet the parse does NOT raise
- re.match accepts the matching prefix and get_lat_long returns the parsed
pair (52.1, 4.3). -/
theorem c4_prefix_match_counterexample :
    coordFull "52.1,4.3x" = false ∧
    get_lat_long "52.1,4.3x" = .ok (mkRat 521 10, mkRat 43 10) := by
  refine ⟨by decide, by decide⟩
